import Mathlib

/-!
Verification of the dmux popup coordinator and mention-autocomplete engine.

The definitions below are a shallow embedding of
`src/components/popups/newPanePopup.tsx`: the `PopupManager` launcher
(`launchPopup`, `handleResult`, `launchNewPanePopup`) and the
`NewPanePopupApp` state machine (@-detection, navigation, insertion,
progressive escape).  JavaScript strings are modelled as Lean `String`
(lists of characters), `undefined`-able fields as `Option`, thrown
exceptions as `Except.error`, and the filesystem / tmux / scanner
collaborators as explicit oracle parameters (`PopupEnv`, scan results).
-/

/-- The character class of the JavaScript regexp `\s`, used by the
source regexps `^([^\s]*)` and `^@[^\s]*`. -/
def jsWhitespace (c : Char) : Bool :=
  [' ', '\t', '\n', '\u000B', '\u000C', '\r', '\u00A0', '\u1680',
   '\u2000', '\u2001', '\u2002', '\u2003', '\u2004', '\u2005', '\u2006',
   '\u2007', '\u2008', '\u2009', '\u200A', '\u2028', '\u2029', '\u202F',
   '\u205F', '\u3000', '\uFEFF'].contains c

/-- The JavaScript record shape `{success?, data?, cancelled?, error?}`
written by a popup process and consumed by `PopupManager.handleResult`.
Absent (`undefined`) fields are `false` / `none`. -/
structure PopupResultJS (T : Type) where
  success : Bool := false
  data : Option T := none
  cancelled : Bool := false
  error : Option String := none
deriving DecidableEq

/-- JavaScript truthiness of a `string | undefined` value
(`undefined` and the empty string are falsy). -/
def strTruthy : Option String → Bool
  | none => false
  | some s => !(s == "")

/-- Observable side effects of `PopupManager.handleResult`: a call to the
`onError` callback, or a default `showTempMessage` notification. -/
inductive HREffect
  | errorCallback (msg : String)
  | tempMessage (msg : String)
deriving DecidableEq

/-- `PopupManager.handleResult` (newPanePopup.tsx lines 491-510).
`onSuccess` is the optional success projector (returning `T | null`),
`hasOnErrorCallback` records whether an `onError` callback was supplied.
Returns the `T | null` result together with the list of effects
performed (callback invocations / notifications). -/
def handleResult {T : Type} (result : PopupResultJS T)
    (onSuccess : Option (T → Option T)) (hasOnErrorCallback : Bool) :
    Option T × List HREffect :=
  if result.success && result.data.isSome then
    ((match onSuccess, result.data with
      | some f, some d => f d
      | none, some d => some d
      | _, none => none), [])
  else if result.cancelled then
    (none, [])
  else if strTruthy result.error then
    let errorMsg := "Popup error: " ++ result.error.getD ""
    if hasOnErrorCallback then (none, [HREffect.errorCallback errorMsg])
    else (none, [HREffect.tempMessage errorMsg])
  else
    (none, [])

/-- The backward scan of the @-detection effect (newPanePopup.tsx lines
72-79): walk from `currentCursor - 1` down to 0 and return the first
index holding `'@'`, if any. -/
def findAtBeforeCursor (prompt : String) (currentCursor : Nat) : Option Nat :=
  (List.range currentCursor).reverse.find? (fun i => prompt.data[i]? == some '@')

/-- Anchor and query of the mention under the cursor (newPanePopup.tsx
lines 81-86): the nearest `'@'` before the cursor together with the
maximal run of non-whitespace characters following it
(`afterAt.match(/^([^\s]*)/)`).  `none` when no `'@'` precedes the
cursor. -/
def scanMention (prompt : String) (currentCursor : Nat) :
    Option (Nat × List Char) :=
  match findAtBeforeCursor prompt currentCursor with
  | none => none
  | some atBeforeCursor =>
      some (atBeforeCursor,
        (prompt.data.drop (atBeforeCursor + 1)).takeWhile
          (fun c => !(jsWhitespace c)))

/-- The autocomplete state owned by `NewPanePopupApp`:
`isFileListActive`, `filteredFiles`, `atPosition` (-1 when inactive) and
`selectedFileIndex` (a JavaScript number, hence `Int`). -/
structure FileListState where
  isFileListActive : Bool
  filteredFiles : List String
  atPosition : Int
  selectedFileIndex : Int
deriving DecidableEq

/-- The @-detection effect (newPanePopup.tsx lines 62-146), as a pure
function of the prompt, the cursor, the outcome of `scanProjectFiles`
(`scan`, `.error` when the scanner throws), the external
`fuzzyMatchFiles` function and the previous state (whose fields survive
in the branches that do not reassign them). -/
def detect (prompt : String) (currentCursor : Nat)
    (scan : Except String (List String))
    (fuzzy : List Char → List String → List String)
    (prev : FileListState) : FileListState :=
  match findAtBeforeCursor prompt currentCursor with
  | none =>
      -- no @ found before cursor: hide file list
      ⟨false, [], -1, prev.selectedFileIndex⟩
  | some atBeforeCursor =>
      let afterAt := prompt.data.drop (atBeforeCursor + 1)
      let query := afterAt.takeWhile (fun c => !(jsWhitespace c))
      let endOfQuery := atBeforeCursor + 1 + query.length
      if atBeforeCursor ≤ currentCursor ∧ currentCursor ≤ endOfQuery then
        -- hide when a completed "@token " has been passed by the cursor
        if afterAt[query.length]? = some ' ' ∧ 0 < query.length
            ∧ endOfQuery < currentCursor then
          ⟨false, [], -1, prev.selectedFileIndex⟩
        else
          match scan with
          | .ok files =>
              ⟨true, fuzzy query files, (atBeforeCursor : Int), 0⟩
          | .error _ =>
              -- catch branch: only filteredFiles and isFileListActive reset
              ⟨false, [], prev.atPosition, prev.selectedFileIndex⟩
      else
        -- cursor outside the @ reference: hide file list
        ⟨false, [], -1, prev.selectedFileIndex⟩

/-- The arrow keys handled while the file list is active
(newPanePopup.tsx lines 179-187). -/
inductive NavKey
  | up
  | down
deriving DecidableEq

/-- One arrow-key step: `Math.max(0, prev - 1)` for up,
`Math.min(filteredFiles.length - 1, prev + 1)` for down. -/
def navStep (filteredFiles : List String) (k : NavKey) (prev : Int) : Int :=
  match k with
  | .up => max 0 (prev - 1)
  | .down => min ((filteredFiles.length : Int) - 1) (prev + 1)

/-- A sequence of arrow-key steps applied in order. -/
def runNav (filteredFiles : List String) (ops : List NavKey) (sel : Int) : Int :=
  ops.foldl (fun s k => navStep filteredFiles k s) sel

/-- Result of the accept gesture (tab/return): the spliced prompt, the
proposed cursor, and the reset autocomplete state. -/
structure AcceptOutcome where
  newPrompt : String
  newCursorPos : Nat
  isFileListActive : Bool
  filteredFiles : List String
  atPosition : Int
deriving DecidableEq

/-- The tab/return branch of the key handler (newPanePopup.tsx lines
191-217).  `none` when the guard `filteredFiles.length > 0 &&
selectedFileIndex < filteredFiles.length` fails and nothing happens.
JavaScript out-of-range indexing yields `undefined`, which string
concatenation renders as `"undefined"`. -/
def acceptMention (prompt : String) (atPosition : Nat)
    (filteredFiles : List String) (selectedFileIndex : Int) :
    Option AcceptOutcome :=
  if 0 < filteredFiles.length
      ∧ selectedFileIndex < (filteredFiles.length : Int) then
    let selectedFile :=
      if selectedFileIndex < 0 then none
      else filteredFiles[selectedFileIndex.toNat]?
    let beforeAt := prompt.data.take atPosition
    let afterAt := prompt.data.drop atPosition
    -- afterAt.match(/^@[^\s]*/): length of the leading @token run
    let queryLength :=
      match afterAt with
      | '@' :: rest => 1 + (rest.takeWhile (fun c => !(jsWhitespace c))).length
      | _ => 1
    let afterQuery := prompt.data.drop (atPosition + queryLength)
    let fileReference :=
      '@' :: (match selectedFile with
              | some f => f.data
              | none => "undefined".data)
    let sep : List Char := if afterQuery.head? = some ' ' then [] else [' ']
    some ⟨⟨beforeAt ++ fileReference ++ sep ++ afterQuery⟩,
          beforeAt.length + fileReference.length, false, [], -1⟩
  else
    none

/-- The state consulted by the escape handling: the autocomplete state
plus the prompt text. -/
structure EscState where
  isFileListActive : Bool
  filteredFiles : List String
  atPosition : Int
  selectedFileIndex : Int
  prompt : String
deriving DecidableEq

/-- `shouldAllowCancel` (newPanePopup.tsx lines 229-249): the popup may
close on escape only when the file list is inactive and the prompt is
empty. -/
def shouldAllowCancel (isFileListActive : Bool) (prompt : String) : Bool :=
  if isFileListActive then false
  else if 0 < prompt.length then false
  else true

/-- The progressive escape gesture: the `key.escape` branch of the
`useInput` handler (newPanePopup.tsx lines 155-171) combined with
`shouldAllowCancel` consulted by `PopupWrapper`.  Returns the next state
and whether the popup session closes. -/
def handleEscape (s : EscState) : EscState × Bool :=
  if s.isFileListActive then
    -- dismiss file list, keep the text
    (⟨false, [], -1, s.selectedFileIndex, s.prompt⟩, false)
  else if 0 < s.prompt.length then
    -- clear the text input, keep the popup open
    ({ s with prompt := "" }, false)
  else
    (s, shouldAllowCancel s.isFileListActive s.prompt)

/-- `scriptName.replace(".js", "")`: JavaScript `String.replace` with a
string pattern removes only the first occurrence of `".js"`. -/
def stripDotJs : List Char → List Char
  | [] => []
  | c :: rest =>
      if c = '.' ∧ rest.take 2 = ['j', 's'] then rest.drop 2
      else c :: stripDotJs rest

/-- Fuel-driven decimal digit rendering: with enough fuel, the decimal
digits of `n`, most significant first. -/
def decReprAux : Nat → Nat → List Char
  | 0, _ => []
  | fuel + 1, n =>
      if n < 10 then [Nat.digitChar n]
      else decReprAux fuel (n / 10) ++ [Nat.digitChar (n % 10)]

/-- Decimal digit string of a natural number, most significant digit
first (the rendering of a number inside a template literal). -/
def decRepr (n : Nat) : List Char := decReprAux (n + 1) n

/-- Decimal rendering as a string. -/
def natToDecimal (n : Nat) : String := ⟨decRepr n⟩

/-- The transient channel-file name allocated by `launchPopup`
(newPanePopup.tsx line 430): the template literal interpolating
`scriptName.replace(".js", "")` and `Date.now()` between `/tmp/dmux-`,
a dash, and `.json`, with `now` the observed `Date.now()` value in
milliseconds. -/
def tempFileName (scriptName : String) (now : Nat) : String :=
  "/tmp/dmux-" ++ (⟨stripDotJs scriptName.data⟩ : String) ++ "-"
    ++ natToDecimal now ++ ".json"

/-- Filesystem calls issued by `launchPopup`, in order. -/
inductive FsEvent
  | writeFile (filePath : String)
  | unlink (filePath : String)
deriving DecidableEq

/-- Oracle outcomes of the collaborators awaited by `launchPopup`:
`fs.writeFile`, `TmuxService.getAllDimensions` (only consulted for
`"large"` positioning), the synchronous `launchNodePopupNonBlocking`
call, the awaited `resultPromise`, and `fs.unlink`.  `.error msg` models
a thrown exception carrying `msg` as its message. -/
structure PopupEnv (T : Type) where
  writeFileResult : Except String Unit
  dimsResult : Except String (Nat × Nat)
  spawnResult : Except String Unit
  awaitResult : Except String (PopupResultJS T)
  unlinkResult : Except String Unit

/-- The three positioning policies of `PopupOptions.positioning`; the
absent/default case follows the final `else` branch, like `standard`. -/
inductive PopupPositioningOpt
  | standard
  | centered
  | large
deriving DecidableEq

/-- Completion of one `launchPopup` call: the returned value or thrown
exception, the filesystem calls made, the spawn arguments (the channel
file is prepended when a payload was persisted), and the set of files
existing afterwards (starting from an empty filesystem). -/
structure LaunchOutcome (T : Type) where
  result : Except String (PopupResultJS T)
  events : List FsEvent
  spawnArgs : List String
  files : List String

/-- `try { await fs.unlink(tempFile) } catch { /* silent */ }`: the file
disappears when the unlink succeeds, a failure is swallowed. -/
def attemptUnlink {T : Type} (tempFile : String) (env : PopupEnv T)
    (files : List String) : List String :=
  match env.unlinkResult with
  | .ok _ => files.erase tempFile
  | .error _ => files

/-- The `catch` clause of `launchPopup` (newPanePopup.tsx lines
475-485): clean up the temp file if one was allocated (silently) and
re-throw the original error unchanged. -/
def cleanupAndRethrow {T : Type} (e : String) (tempFile : Option String)
    (env : PopupEnv T) (spawnArgs : List String) (files : List String)
    (events : List FsEvent) : LaunchOutcome T :=
  match tempFile with
  | some f => ⟨.error e, events ++ [.unlink f], spawnArgs,
               attemptUnlink f env files⟩
  | none => ⟨.error e, events, spawnArgs, files⟩

/-- The body of `launchPopup` after the temp file step (newPanePopup.tsx
lines 435-474): resolve positioning (awaiting tmux dimensions for
`"large"`), spawn, await the result, then clean up the temp file and
return; any throw runs the catch clause. -/
def launchPopupBody {T : Type} (posOpt : PopupPositioningOpt)
    (tempFile : Option String) (env : PopupEnv T) (spawnArgs : List String)
    (files : List String) (events : List FsEvent) : LaunchOutcome T :=
  match (match posOpt with
         | .large => env.dimsResult.map (fun _ => ())
         | _ => Except.ok ()) with
  | .error e => cleanupAndRethrow e tempFile env spawnArgs files events
  | .ok _ =>
    match env.spawnResult with
    | .error e => cleanupAndRethrow e tempFile env spawnArgs files events
    | .ok _ =>
      match env.awaitResult with
      | .error e => cleanupAndRethrow e tempFile env spawnArgs files events
      | .ok result =>
          match tempFile with
          | some f => ⟨.ok result, events ++ [.unlink f], spawnArgs,
                       attemptUnlink f env files⟩
          | none => ⟨.ok result, events, spawnArgs, files⟩

/-- `PopupManager.launchPopup` (newPanePopup.tsx lines 418-486).  When
`tempData` is present a channel file named from the script and the
observed `Date.now()` value is allocated and written, and its path is
prepended to `args`; the write may itself throw, in which case the catch
clause still attempts the cleanup. -/
def launchPopup {T : Type} (scriptName : String) (args : List String)
    (posOpt : PopupPositioningOpt) (tempData : Option String) (now : Nat)
    (env : PopupEnv T) : LaunchOutcome T :=
  match tempData with
  | some _ =>
      let tempFile := tempFileName scriptName now
      match env.writeFileResult with
      | .error e =>
          cleanupAndRethrow e (some tempFile) env (tempFile :: args) []
            [.writeFile tempFile]
      | .ok _ =>
          launchPopupBody posOpt (some tempFile) env (tempFile :: args)
            [tempFile] [.writeFile tempFile]
  | none => launchPopupBody posOpt none env args [] []

/-- `PopupManager.launchNewPanePopup` (newPanePopup.tsx lines 512-537):
check popup support (temp message and `null` when absent), launch
`newPanePopup.js` centered with no payload, classify via `handleResult`
with no projector and no error callback, and catch any thrown error into
a `Failed to launch popup` temp message and a `null` return.  Returns
the `string | null` value and the temp messages shown. -/
def launchNewPanePopup (popupsSupported : Bool) (projectPath : Option String)
    (now : Nat) (env : PopupEnv String) : Option String × List String :=
  if popupsSupported = false then
    (none, ["Popups require tmux 3.2+"])
  else
    let popupArgs := match projectPath with
      | some p => [p]
      | none => []
    let out := launchPopup "newPanePopup.js" popupArgs .centered none now env
    match out.result with
    | .error e => (none, ["Failed to launch popup: " ++ e])
    | .ok result =>
        let hr := handleResult result none false
        (hr.1, hr.2.filterMap (fun ef =>
          match ef with
          | .tempMessage m => some m
          | _ => none))

/-- Written from the spec's words in §4.2 (the insertion rule of claim
C5), with the separator rule as the code has it: `before +
"@" + candidates[selectedIndex] + separator + rest` where `before =
text[0:anchorIndex]`, `rest` is `text[anchorIndex:]` stripped of the
leading `@token` run (`1 + query.length` characters, or 1 if the run
cannot be re-derived), the separator is empty exactly when `rest`
already begins with a space character, and the proposed cursor is
`before.length + 1 + candidates[selectedIndex].length`. -/
def specInsertionText (text : String) (anchorIndex : Nat)
    (candidate : String) : String × Nat :=
  let before := text.data.take anchorIndex
  let tokenRun :=
    match text.data.drop anchorIndex with
    | '@' :: rest => 1 + (rest.takeWhile (fun c => !(jsWhitespace c))).length
    | _ => 1
  let rest := text.data.drop (anchorIndex + tokenRun)
  let sep : List Char := if rest.head? = some ' ' then [] else [' ']
  (⟨before ++ ('@' :: candidate.data) ++ sep ++ rest⟩,
   before.length + 1 + candidate.length)

/-- Claim C5 exactly as stated: like `specInsertionText` but with the
separator empty whenever `rest` begins with any whitespace character
("separator is empty if rest already begins with whitespace"). -/
def specInsertionTextWs (text : String) (anchorIndex : Nat)
    (candidate : String) : String × Nat :=
  let before := text.data.take anchorIndex
  let tokenRun :=
    match text.data.drop anchorIndex with
    | '@' :: rest => 1 + (rest.takeWhile (fun c => !(jsWhitespace c))).length
    | _ => 1
  let rest := text.data.drop (anchorIndex + tokenRun)
  let sep : List Char :=
    if (match rest.head? with
        | some c => jsWhitespace c
        | none => false) then [] else [' ']
  (⟨before ++ ('@' :: candidate.data) ++ sep ++ rest⟩,
   before.length + 1 + candidate.length)

/-- Numeric value of a decimal digit character. -/
def charDigitVal (c : Char) : Nat := c.toNat - 48

/-- Value of a decimal digit string, most significant digit first. -/
def valOfDigits (l : List Char) : Nat :=
  l.foldl (fun a c => a * 10 + charDigitVal c) 0

/-- A sample environment whose awaited result promise rejects with
`"boom"` and whose unlink also fails. -/
def envAwaitBoom : PopupEnv String :=
  ⟨Except.ok (), Except.ok (1, 1), Except.ok (), Except.error "boom",
   Except.error "unlink-fail"⟩

/-- C2: `handleResult` totally classifies `PopupResult`:
`{success:true, data:"x"}` with no projector returns `"x"` with no
effects; `{cancelled:true}` returns `null` with no error callback and no
notification; `{error:"boom"}` with no error callback performs exactly
one default transient notification and returns `null`; with an error
callback it invokes that callback exactly once instead and returns
`null`. -/
theorem claim_C2_handleResult_classification :
    handleResult (T := String) ⟨true, some "x", false, none⟩ none false
      = (some "x", [])
    ∧ handleResult (T := String) ⟨false, none, true, none⟩ none false
      = (none, [])
    ∧ handleResult (T := String) ⟨false, none, false, some "boom"⟩ none false
      = (none, [HREffect.tempMessage "Popup error: boom"])
    ∧ handleResult (T := String) ⟨false, none, false, some "boom"⟩ none true
      = (none, [HREffect.errorCallback "Popup error: boom"]) := by
  refine ⟨rfl, rfl, ?_, ?_⟩ <;> decide

/-- C10: a result with `success:true` but `data === undefined` falls
through every branch of `handleResult`: it returns `null` with no
projector call, no error callback and no notification, for every choice
of projector and callback. -/
theorem claim_C10_undefined_data
    (onSuccess : Option (String → Option String)) (hasOnErrorCallback : Bool) :
    handleResult (T := String) ⟨true, none, false, none⟩ onSuccess hasOnErrorCallback
      = (none, []) := by
  cases hasOnErrorCallback <;> rfl

/-- A hit of the backward @-scan lies strictly before the cursor. -/
theorem findAtBeforeCursor_lt {prompt : String} {currentCursor a : Nat}
    (h : findAtBeforeCursor prompt currentCursor = some a) : a < currentCursor := by
  have hmem := List.mem_of_find?_eq_some h
  rw [List.mem_reverse] at hmem
  exact List.mem_range.mp hmem

/-- A string has positive length exactly when it is not empty. -/
theorem string_length_pos_iff (t : String) : 0 < t.length ↔ t ≠ "" := by
  cases t with
  | mk l =>
      cases l with
      | nil => simp [String.length]
      | cons c cs =>
          constructor
          · intro _ he
            exact absurd (congrArg String.data he) (by simp)
          · intro _
            simp [String.length]

/-- C3: mention detection over `(text, cursorIndex)`: the engine scans
backward from `cursorIndex - 1` for the nearest `'@'`; with a successful
file scan, the list is active iff such an `'@'` exists and
`cursorIndex ≤ anchorIndex + 1 + query.length` where `query` is the
maximal non-whitespace run after the `'@'` (so a cursor past a completed
token deactivates it).  In particular `"fix @BU"` at cursor 7 is active
with anchor 4 and query `"BU"`, `"fix @BUG.md rest"` at cursor 13 is
inactive, and the same text at cursor 11 is active. -/
theorem claim_C3_mention_detection :
    (∀ (prompt : String) (currentCursor : Nat) (files : List String)
        (fuzzy : List Char → List String → List String) (prev : FileListState),
      ((detect prompt currentCursor (Except.ok files) fuzzy prev).isFileListActive
          = true
        ↔ ∃ a q, scanMention prompt currentCursor = some (a, q)
            ∧ currentCursor ≤ a + 1 + q.length))
    ∧ scanMention "fix @BU" 7 = some (4, ['B', 'U'])
    ∧ (detect "fix @BU" 7 (Except.ok []) (fun _ _ => [])
        ⟨false, [], -1, 0⟩).isFileListActive = true
    ∧ (detect "fix @BU" 7 (Except.ok []) (fun _ _ => [])
        ⟨false, [], -1, 0⟩).atPosition = 4
    ∧ (detect "fix @BUG.md rest" 13 (Except.ok []) (fun _ _ => [])
        ⟨false, [], -1, 0⟩).isFileListActive = false
    ∧ (detect "fix @BUG.md rest" 11 (Except.ok []) (fun _ _ => [])
        ⟨false, [], -1, 0⟩).isFileListActive = true := by
  refine ⟨?_, by decide, by decide, by decide, by decide, by decide⟩
  intro prompt currentCursor files fuzzy prev
  simp only [detect, scanMention]
  cases h : findAtBeforeCursor prompt currentCursor with
  | none => simp
  | some a =>
      have ha : a < currentCursor := findAtBeforeCursor_lt h
      dsimp only
      split_ifs with hin hdis
      · exact absurd hdis.2.2 (by omega)
      · simp only [Option.some.injEq, Prod.mk.injEq]
        constructor
        · intro _
          exact ⟨a, _, ⟨rfl, rfl⟩, hin.2⟩
        · intro _
          trivial
      · simp only [Option.some.injEq, Prod.mk.injEq]
        constructor
        · intro hfalse
          exact absurd hfalse (by simp)
        · rintro ⟨a', q', ⟨rfl, rfl⟩, hle⟩
          exact absurd ⟨by omega, hle⟩ hin

/-- Counterexample to C4: with text `"see @re"`, cursor 7 (anchor 4),
candidates `["readme.md"]` and selected index 0, the accept gesture
proposes cursor index 14 (`beforeAt.length + fileReference.length`),
not 16 as the claim states. -/
theorem claim_C4_counterexample :
    (acceptMention "see @re" 4 ["readme.md"] 0).map AcceptOutcome.newCursorPos
      = some 14
    ∧ ¬((acceptMention "see @re" 4 ["readme.md"] 0).map AcceptOutcome.newCursorPos
      = some 16) := by
  decide

/-- C4 (amended): given text `"see @re"`, cursor at 7 (anchor 4),
candidates `["readme.md"]`, selected index 0, the accept gesture
produces new text `"see @readme.md "` (a trailing space is inserted
because none followed) and proposes new cursor index 14, resetting the
autocomplete state. -/
theorem claim_C4_insertion_example :
    acceptMention "see @re" 4 ["readme.md"] 0
      = some ⟨"see @readme.md ", 14, false, [], -1⟩ := by
  decide

/-- Counterexample to C6: the code allows an active file list with zero
candidates, and a single down-arrow there moves `selectedFileIndex` from
0 to `min(length - 1, 1) = -1`, outside `[0, candidates.length - 1]`. -/
theorem claim_C6_counterexample :
    navStep [] NavKey.down 0 = -1
    ∧ ¬(0 ≤ navStep [] NavKey.down 0
        ∧ navStep [] NavKey.down 0 ≤ (([] : List String).length : Int) - 1) := by
  decide

/-- C6 (amended): whenever the candidate list is non-empty, every
sequence of up/down navigation steps keeps `selectedFileIndex` inside
`[0, candidates.length - 1]`; a down step at the last index and an up
step at index 0 are no-ops (no wraparound). -/
theorem claim_C6_navigation_clamped (files : List String) (ops : List NavKey)
    (sel : Int) (hlen : 1 ≤ files.length) (h0 : 0 ≤ sel)
    (h1 : sel ≤ (files.length : Int) - 1) :
    (0 ≤ runNav files ops sel
      ∧ runNav files ops sel ≤ (files.length : Int) - 1)
    ∧ navStep files NavKey.down ((files.length : Int) - 1)
      = (files.length : Int) - 1
    ∧ navStep files NavKey.up 0 = 0 := by
  refine ⟨?_, ?_, ?_⟩
  · induction ops generalizing sel with
    | nil => exact ⟨h0, h1⟩
    | cons k ks ih =>
        have hstep : 0 ≤ navStep files k sel
            ∧ navStep files k sel ≤ (files.length : Int) - 1 := by
          cases k with
          | up => exact ⟨le_max_left 0 _, max_le (by omega) (by omega)⟩
          | down => exact ⟨le_min (by omega) (by omega), min_le_left _ _⟩
        exact ih _ hstep.1 hstep.2
  · exact min_eq_left (by omega)
  · exact max_eq_left (by omega)

/-- Witness for the amended C6 at candidates `["a", "b"]`, start index
0, steps down-down-up. -/
theorem claim_C6_witness :
    (0 ≤ runNav ["a", "b"] [NavKey.down, NavKey.down, NavKey.up] 0
      ∧ runNav ["a", "b"] [NavKey.down, NavKey.down, NavKey.up] 0
        ≤ ((["a", "b"] : List String).length : Int) - 1)
    ∧ navStep ["a", "b"] NavKey.down (((["a", "b"] : List String).length : Int) - 1)
      = ((["a", "b"] : List String).length : Int) - 1
    ∧ navStep ["a", "b"] NavKey.up 0 = 0 :=
  claim_C6_navigation_clamped ["a", "b"] [NavKey.down, NavKey.down, NavKey.up] 0
    (by decide) (by decide) (by decide)

/-- C7: a cancel gesture closes the session only when the file list is
inactive and the text is empty; while the list is active it only
deactivates it (text unchanged), and with inactive list and non-empty
text it only clears the text.  Hence from an active list with non-empty
text, three successive cancel gestures dismiss the suggestions, clear
the text, and close the session. -/
theorem claim_C7_progressive_cancel :
    (∀ s : EscState,
      ((handleEscape s).2 = true ↔ s.isFileListActive = false ∧ s.prompt = ""))
    ∧ (∀ s : EscState, s.isFileListActive = true →
        (handleEscape s).1.prompt = s.prompt
        ∧ (handleEscape s).1.isFileListActive = false
        ∧ (handleEscape s).2 = false)
    ∧ (∀ s : EscState, s.isFileListActive = false → s.prompt ≠ "" →
        (handleEscape s).1.prompt = "" ∧ (handleEscape s).2 = false)
    ∧ (∀ (files : List String) (atPos sel : Int) (t : String), t ≠ "" →
        (handleEscape ⟨true, files, atPos, sel, t⟩).2 = false
        ∧ ((handleEscape ⟨true, files, atPos, sel, t⟩).1).prompt = t
        ∧ ((handleEscape ⟨true, files, atPos, sel, t⟩).1).isFileListActive = false
        ∧ (handleEscape ((handleEscape ⟨true, files, atPos, sel, t⟩).1)).2 = false
        ∧ ((handleEscape ((handleEscape ⟨true, files, atPos, sel, t⟩).1)).1).prompt
          = ""
        ∧ (handleEscape ((handleEscape
            ((handleEscape ⟨true, files, atPos, sel, t⟩).1)).1)).2 = true) := by
  have hne : ∀ t : String, t ≠ "" → 0 < t.length :=
    fun t ht => (string_length_pos_iff t).mpr ht
  refine ⟨?_, ?_, ?_, ?_⟩
  · intro s
    simp only [handleEscape, shouldAllowCancel]
    split_ifs with h1 h2
    · simp [h1]
    · constructor
      · intro hfalse
        exact absurd hfalse (by simp)
      · rintro ⟨-, he⟩
        exact absurd (hne _ ((string_length_pos_iff s.prompt).mp h2 |> fun hn => hn))
          (by intro hc; exact absurd he ((string_length_pos_iff s.prompt).mp h2))
    · simp only [Bool.not_eq_true] at h1
      simp only [Nat.not_lt, Nat.le_zero] at h2
      constructor
      · intro _
        refine ⟨h1, ?_⟩
        by_contra hne'
        exact absurd ((string_length_pos_iff s.prompt).mpr hne') (by omega)
      · intro _
        rfl
  · intro s hs
    simp [handleEscape, hs]
  · intro s hs ht
    simp [handleEscape, hs, hne _ ht]
  · intro files atPos sel t ht
    simp [handleEscape, shouldAllowCancel, hne _ ht]

/-- Witness for C7 from the state: active list, text `"hi"`. -/
theorem claim_C7_witness :
    (handleEscape ⟨true, ["a"], 4, 0, "hi"⟩).2 = false
    ∧ ((handleEscape ⟨true, ["a"], 4, 0, "hi"⟩).1).prompt = "hi"
    ∧ ((handleEscape ⟨true, ["a"], 4, 0, "hi"⟩).1).isFileListActive = false
    ∧ (handleEscape ((handleEscape ⟨true, ["a"], 4, 0, "hi"⟩).1)).2 = false
    ∧ ((handleEscape ((handleEscape ⟨true, ["a"], 4, 0, "hi"⟩).1)).1).prompt = ""
    ∧ (handleEscape ((handleEscape
        ((handleEscape ⟨true, ["a"], 4, 0, "hi"⟩).1)).1)).2 = true :=
  claim_C7_progressive_cancel.2.2.2 ["a"] 4 0 "hi" (by decide)

/-- C1: when `launchPopup` persists a payload, an unlink of the channel
file is attempted on every exit path (whatever the awaited result is,
and whenever any step throws), the returned result or raised exception
is independent of whether that unlink succeeds, and when the unlink
succeeds the file no longer exists. -/
theorem claim_C1_channel_file_cleanup {T : Type} (scriptName : String)
    (args : List String) (posOpt : PopupPositioningOpt) (payload : String)
    (now : Nat) (env : PopupEnv T) :
    FsEvent.unlink (tempFileName scriptName now)
      ∈ (launchPopup scriptName args posOpt (some payload) now env).events
    ∧ (∀ u, (launchPopup scriptName args posOpt (some payload) now
          { env with unlinkResult := u }).result
        = (launchPopup scriptName args posOpt (some payload) now env).result)
    ∧ (env.unlinkResult = Except.ok () →
        tempFileName scriptName now
          ∉ (launchPopup scriptName args posOpt (some payload) now env).files) := by
  obtain ⟨wf, dims, sp, aw, ul⟩ := env
  refine ⟨?_, fun u => ?_, fun hul => ?_⟩
  · cases wf <;> cases posOpt <;> cases dims <;> cases sp <;> cases aw <;>
      simp [launchPopup, launchPopupBody, cleanupAndRethrow, attemptUnlink,
        Except.map]
  · cases wf <;> cases posOpt <;> cases dims <;> cases sp <;> cases aw <;> rfl
  · simp only at hul
    subst hul
    cases wf <;> cases posOpt <;> cases dims <;> cases sp <;> cases aw <;>
      simp [launchPopup, launchPopupBody, cleanupAndRethrow, attemptUnlink,
        Except.map, List.erase_cons_head]

/-- Witness for C1 on a successful launch with a persisted payload and a
succeeding unlink. -/
theorem claim_C1_witness :
    FsEvent.unlink (tempFileName "newPanePopup.js" 5)
      ∈ (launchPopup (T := String) "newPanePopup.js" []
          PopupPositioningOpt.centered (some "the-payload") 5
          ⟨Except.ok (), Except.ok (80, 24), Except.ok (),
           Except.ok ⟨true, some "hi", false, none⟩, Except.ok ()⟩).events
    ∧ (launchPopup (T := String) "newPanePopup.js" []
          PopupPositioningOpt.centered (some "the-payload") 5
          { (⟨Except.ok (), Except.ok (80, 24), Except.ok (),
              Except.ok ⟨true, some "hi", false, none⟩, Except.ok ()⟩ : PopupEnv String)
            with unlinkResult := Except.error "x" }).result
      = (launchPopup (T := String) "newPanePopup.js" []
          PopupPositioningOpt.centered (some "the-payload") 5
          ⟨Except.ok (), Except.ok (80, 24), Except.ok (),
           Except.ok ⟨true, some "hi", false, none⟩, Except.ok ()⟩).result
    ∧ tempFileName "newPanePopup.js" 5
        ∉ (launchPopup (T := String) "newPanePopup.js" []
            PopupPositioningOpt.centered (some "the-payload") 5
            ⟨Except.ok (), Except.ok (80, 24), Except.ok (),
             Except.ok ⟨true, some "hi", false, none⟩, Except.ok ()⟩).files := by
  have h := claim_C1_channel_file_cleanup (T := String) "newPanePopup.js" []
    PopupPositioningOpt.centered "the-payload" 5
    ⟨Except.ok (), Except.ok (80, 24), Except.ok (),
     Except.ok ⟨true, some "hi", false, none⟩, Except.ok ()⟩
  exact ⟨h.1, h.2.1 (Except.error "x"), h.2.2 rfl⟩

/-- Counterexample to C9: when awaiting the popup result throws,
`launchPopup` re-raises the raw exception; it does not return the
`Error` variant of `PopupResult` (it returns no `PopupResult` at all). -/
theorem claim_C9_counterexample :
    (launchPopup (T := String) "newPanePopup.js" []
        PopupPositioningOpt.centered none 0 envAwaitBoom).result
      = Except.error "boom"
    ∧ (launchPopup (T := String) "newPanePopup.js" []
        PopupPositioningOpt.centered none 0 envAwaitBoom).result
      ≠ Except.ok ⟨false, none, false, some "boom"⟩ := by
  have h1 : (launchPopup (T := String) "newPanePopup.js" []
      PopupPositioningOpt.centered none 0 envAwaitBoom).result
      = Except.error "boom" := rfl
  refine ⟨h1, ?_⟩
  rw [h1]
  intro h
  exact Except.noConfusion h

/-- C9 (amended): when spawning or awaiting throws, `launchPopup`
attempts the channel-file cleanup and re-raises the raw exception
unchanged; the public `launchNewPanePopup` catches it, shows one
transient `Failed to launch popup` message, and returns `null` — its
caller sees neither a raw exception nor an `Error` `PopupResult`. -/
theorem claim_C9_error_normalization {T : Type} (scriptName : String)
    (args : List String) (posOpt : PopupPositioningOpt)
    (tempData : Option String) (now : Nat) (env : PopupEnv T) (e : String)
    (hwrite : env.writeFileResult = Except.ok ())
    (hdims : posOpt = PopupPositioningOpt.large →
      ∃ d, env.dimsResult = Except.ok d)
    (hthrow : env.spawnResult = Except.error e
      ∨ (env.spawnResult = Except.ok () ∧ env.awaitResult = Except.error e)) :
    (launchPopup scriptName args posOpt tempData now env).result
      = Except.error e
    ∧ (∀ p, tempData = some p →
        FsEvent.unlink (tempFileName scriptName now)
          ∈ (launchPopup scriptName args posOpt tempData now env).events)
    ∧ (∀ envS : PopupEnv String,
        envS.spawnResult = Except.ok () →
        envS.awaitResult = Except.error e →
        launchNewPanePopup true none now envS
          = (none, ["Failed to launch popup: " ++ e])) := by
  obtain ⟨wf, dims, sp, aw, ul⟩ := env
  simp only at hwrite hdims hthrow
  subst hwrite
  have key : ∀ (tf : Option String) (sa fs : List String) (ev : List FsEvent),
      (launchPopupBody posOpt tf
          (⟨Except.ok (), dims, sp, aw, ul⟩ : PopupEnv T) sa fs ev).result
        = Except.error e
      ∧ ∀ f, tf = some f →
          FsEvent.unlink f ∈ (launchPopupBody posOpt tf
            (⟨Except.ok (), dims, sp, aw, ul⟩ : PopupEnv T) sa fs ev).events := by
    intro tf sa fs ev
    cases posOpt with
    | large =>
        obtain ⟨d, hd⟩ := hdims rfl
        subst hd
        rcases hthrow with hsp | ⟨hsp, haw⟩ <;> subst hsp <;> cases tf <;>
          simp_all [launchPopupBody, cleanupAndRethrow, Except.map]
    | standard =>
        rcases hthrow with hsp | ⟨hsp, haw⟩ <;> subst hsp <;> cases tf <;>
          simp_all [launchPopupBody, cleanupAndRethrow, Except.map]
    | centered =>
        rcases hthrow with hsp | ⟨hsp, haw⟩ <;> subst hsp <;> cases tf <;>
          simp_all [launchPopupBody, cleanupAndRethrow, Except.map]
  refine ⟨?_, ?_, ?_⟩
  · cases tempData with
    | none => exact (key none _ _ _).1
    | some p => exact (key (some (tempFileName scriptName now)) _ _ _).1
  · intro p hp
    subst hp
    exact (key (some (tempFileName scriptName now)) _ _ _).2 _ rfl
  · intro envS h1 h2
    obtain ⟨wfS, dimsS, spS, awS, ulS⟩ := envS
    simp only at h1 h2
    subst h1
    subst h2
    simp [launchNewPanePopup, launchPopup, launchPopupBody, cleanupAndRethrow]

/-- Witness for the amended C9: a standard-positioned launch with a
payload whose await rejects with `"boom"` and whose unlink fails, and
the public launcher's behavior on the same failing environment. -/
theorem claim_C9_witness :
    (launchPopup (T := String) "confirmPopup.js" []
        PopupPositioningOpt.standard (some "d") 7 envAwaitBoom).result
      = Except.error "boom"
    ∧ FsEvent.unlink (tempFileName "confirmPopup.js" 7)
        ∈ (launchPopup (T := String) "confirmPopup.js" []
            PopupPositioningOpt.standard (some "d") 7 envAwaitBoom).events
    ∧ launchNewPanePopup true none 7 envAwaitBoom
        = (none, ["Failed to launch popup: " ++ "boom"]) := by
  have h := claim_C9_error_normalization (T := String) "confirmPopup.js" []
    PopupPositioningOpt.standard (some "d") 7 envAwaitBoom "boom" rfl
    (fun hx => nomatch hx) (Or.inr ⟨rfl, rfl⟩)
  exact ⟨h.1, h.2.1 "d" rfl, h.2.2 envAwaitBoom rfl rfl⟩

/-- Counterexample to C5 as stated: with text `"a @x<TAB>b"` (anchor 2,
rest beginning with a tab), the code inserts a space separator because
it checks `startsWith(' ')`, while the claim's rule ("separator empty if
rest begins with whitespace") would insert none. -/
theorem claim_C5_counterexample :
    (acceptMention "a @x\tb" 2 ["f1"] 0).map AcceptOutcome.newPrompt
      = some "a @f1 \tb"
    ∧ (specInsertionTextWs "a @x\tb" 2 "f1").1 = "a @f1\tb"
    ∧ (acceptMention "a @x\tb" 2 ["f1"] 0).map AcceptOutcome.newPrompt
      ≠ some (specInsertionTextWs "a @x\tb" 2 "f1").1 := by
  decide

/-- C5 (amended): for every accepted mention with non-empty candidates
and an in-range selected index, the spliced text is `before + "@" +
candidates[selectedIndex] + separator + rest` with `before =
text[0:anchorIndex]`, `rest` equal to `text[anchorIndex:]` stripped of
the leading `@token` run (`1 + query.length` characters, or 1 if the run
cannot be re-derived), and the separator empty exactly when `rest`
begins with a space character (not any whitespace); the proposed cursor
is `before.length + 1 + candidates[selectedIndex].length`, and the
autocomplete state is reset (inactive, no candidates). -/
theorem claim_C5_insertion_rule (text : String) (anchorIndex : Nat)
    (files : List String) (sel : Int) (candidate : String)
    (h0 : 0 ≤ sel) (hc : files[sel.toNat]? = some candidate) :
    acceptMention text anchorIndex files sel
      = some ⟨(specInsertionText text anchorIndex candidate).1,
              (specInsertionText text anchorIndex candidate).2,
              false, [], -1⟩ := by
  have hlt : sel.toNat < files.length := by
    by_contra hge
    rw [List.getElem?_eq_none (by omega)] at hc
    exact Option.noConfusion hc
  have hsel : sel < (files.length : Int) := by omega
  simp only [acceptMention, specInsertionText]
  rw [if_pos ⟨by omega, hsel⟩, if_neg (show ¬sel < 0 by omega), hc]
  have hclen : candidate.length = candidate.data.length := rfl
  simp only [Option.some.injEq, AcceptOutcome.mk.injEq, List.length_cons,
    eq_self_iff_true, true_and, and_true]
  omega

/-- Witness for the amended C5 at the insertion example of the spec. -/
theorem claim_C5_witness :
    acceptMention "see @re" 4 ["readme.md"] 0
      = some ⟨(specInsertionText "see @re" 4 "readme.md").1,
              (specInsertionText "see @re" 4 "readme.md").2,
              false, [], -1⟩ :=
  claim_C5_insertion_rule "see @re" 4 ["readme.md"] 0 "readme.md"
    (by decide) (by decide)

/-- `String.mk` and `String.data` are inverse. -/
theorem string_mk_data (l : List Char) : (String.mk l).data = l := rfl

/-- `charDigitVal` inverts `Nat.digitChar` on decimal digits. -/
theorem charDigitVal_digitChar (d : Nat) (hd : d < 10) :
    charDigitVal (Nat.digitChar d) = d := by
  interval_cases d <;> decide

/-- With sufficient fuel, `valOfDigits` recovers the rendered number. -/
theorem valOfDigits_decReprAux (fuel : Nat) :
    ∀ n : Nat, n < fuel → valOfDigits (decReprAux fuel n) = n := by
  induction fuel with
  | zero => intro n h; omega
  | succ f ih =>
      intro n h
      by_cases h10 : n < 10
      · simp only [decReprAux, if_pos h10]
        unfold valOfDigits
        simp only [List.foldl_cons, List.foldl_nil]
        rw [charDigitVal_digitChar n h10]
        omega
      · simp only [decReprAux, if_neg h10]
        have hdiv : n / 10 < n := Nat.div_lt_self (by omega) (by omega)
        have ihv := ih (n / 10) (by omega)
        unfold valOfDigits at ihv ⊢
        rw [List.foldl_append, ihv]
        simp only [List.foldl_cons, List.foldl_nil]
        rw [charDigitVal_digitChar (n % 10) (Nat.mod_lt _ (by omega))]
        omega

/-- The decimal rendering of natural numbers is injective. -/
theorem decRepr_inj {m n : Nat} (h : decRepr m = decRepr n) : m = n := by
  have hm := valOfDigits_decReprAux (m + 1) m (by omega)
  have hn := valOfDigits_decReprAux (n + 1) n (by omega)
  simp only [decRepr] at h
  rw [h] at hm
  rw [hn] at hm
  exact hm.symm

/-- Counterexample to C8: two concurrent `launchPopup` calls that both
persist a payload can receive the same channel-file name — the
uniqueness token is `Date.now()` in milliseconds, so distinct script
names `"newPanePopup.js"` and `"newPanePopup"` (whose stems coincide
after stripping the first `".js"`) observed in the same millisecond
collide. -/
theorem claim_C8_counterexample :
    tempFileName "newPanePopup.js" 123 = tempFileName "newPanePopup" 123
    ∧ ("newPanePopup.js" : String) ≠ "newPanePopup" := by
  refine ⟨rfl, by decide⟩

/-- C8 (amended): channel-file names are unique only per (stem,
timestamp): for a fixed script name, two launches that persist payloads
receive distinct channel-file names iff they observe distinct
`Date.now()` values; launches sharing the stem and the millisecond
collide. -/
theorem claim_C8_name_uniqueness (scriptName : String) (t1 t2 : Nat) :
    tempFileName scriptName t1 = tempFileName scriptName t2 ↔ t1 = t2 := by
  constructor
  · intro h
    have hd := congrArg String.data h
    simp only [tempFileName, natToDecimal, String.data_append, string_mk_data,
      List.append_assoc] at hd
    have h1 := List.append_cancel_left hd
    have h2 := List.append_cancel_left h1
    have h3 := List.append_cancel_left h2
    have h4 := List.append_cancel_right h3
    exact decRepr_inj h4
  · intro h
    rw [h]
